import Mathlib

/-!
Shallow embedding of `src/scripts/gen-docs.py` (reanimat0r/url-cleaner).

The script walks a parsed JSON configuration tree and prints Markdown:
headings for dict-valued children, bullet lines for string-valued children,
raw passthrough for list-of-string children.  A module-global `last`
remembers the Python type of the previously emitted child and controls an
extra blank line printed before a heading.  We model `print` output as a
list of output lines and thread `last` explicitly as state.
-/

namespace GenDocs

/-- A parsed JSON value as the script distinguishes them: a dict (ordered
key/value pairs, keys unique), a string, a list of strings, or any other
JSON value (number, boolean, null, ...), which the script's
`isinstance` chain never matches. -/
inductive Node where
  | dict : List (String × Node) → Node
  | str : String → Node
  | list : List String → Node
  | other : Node

/-- The Python type object stored in the global `last`: `dict`, `str` or
`list`.  `last = None` is modelled by `Option Var` being `none`. -/
inductive Var where
  | dict
  | str
  | list
deriving DecidableEq, Repr

/-- Embedding of `k.replace("_", " ")` for the single-character pattern the
script uses: each underscore becomes a space. -/
def underscoreToSpace (s : String) : String :=
  String.mk (s.data.map (fun c => if c = '_' then ' ' else c))

/-- Character-list worker for Python `str.title()` (ASCII fragment):
an alphabetic character is uppercased when the previous character was not
alphabetic and lowercased otherwise; non-alphabetic characters pass
through and reset the word boundary. -/
def titleAux : Bool → List Char → List Char
  | _, [] => []
  | prevAlpha, c :: cs =>
      if c.isAlpha then
        (if prevAlpha then c.toLower else c.toUpper) :: titleAux true cs
      else
        c :: titleAux false cs

/-- Embedding of Python `str.title()` on the ASCII strings the script
handles. -/
def pyTitle (s : String) : String :=
  String.mk (titleAux false s.data)

/-- The line printed by `print("#"*i, k.replace("_", " ").title())`:
`i` copies of `#`, the separating space `print` inserts, and the
transformed key. -/
def headingLine (i : Nat) (k : String) : String :=
  String.replicate i '#' ++ " " ++ pyTitle (underscoreToSpace k)

/-- The line printed by `print(f"- \x60{k}\x60: {v}")`. -/
def descLine (k v : String) : String :=
  "- `" ++ k ++ "`: " ++ v

/-- Embedding of `thing(x, i)` (lines 7–23 of the script).  The dict `x`
is its ordered item list; the global `last` is threaded in and out
explicitly.  Returns the printed lines together with the final value of
`last`.

```
def thing(x, i):
    global last
    for (k, v) in x.items():
        if isinstance(v, dict):
            if last is not None and last != dict:
                print()
            last = dict
            print("#"*i, k.replace("_", " ").title())
            print()
            thing(v, i+1)
        elif isinstance(v, str):
            print(f"- \x60{k}\x60: {v}")
            last = str
        elif isinstance(v, list):
            for line in v:
                print(line)
            last = list
```
-/
def thing : List (String × Node) → Nat → Option Var → List String × Option Var
  | [], _, last => ([], last)
  | (k, Node.dict m) :: rest, i, last =>
      let blank : List String :=
        if last ≠ none ∧ last ≠ some Var.dict then [""] else []
      let sub := thing m (i + 1) (some Var.dict)
      let tl := thing rest i sub.2
      (blank ++ headingLine i k :: "" :: sub.1 ++ tl.1, tl.2)
  | (k, Node.str v) :: rest, i, _ =>
      let tl := thing rest i (some Var.str)
      (descLine k v :: tl.1, tl.2)
  | (_, Node.list ls) :: rest, i, _ =>
      let tl := thing rest i (some Var.list)
      (ls ++ tl.1, tl.2)
  | (_, Node.other) :: rest, i, last => thing rest i last

/-- Embedding of the module entry (lines 25–28): after parsing, the
script takes the `docs` object, executes `del x["description"]` — which
raises `KeyError` when the key is absent — and calls `thing(x, 4)` with
the global `last` still `None`.  `Except` models the `KeyError` path. -/
def eraseKey : List (String × Node) → String → List (String × Node)
  | [], _ => []
  | (k, v) :: rest, key => if k = key then rest else (k, v) :: eraseKey rest key

/-- `del x["description"]; thing(x, 4)` on the `docs` object, returning
the printed lines or the `KeyError` with which the run aborts before any
output. -/
def genDocs (docs : List (String × Node)) : Except String (List String) :=
  if docs.any (fun p => p.1 = "description") then
    Except.ok (thing (eraseKey docs "description") 4 none).1
  else
    Except.error "KeyError: description"

/-- A heading line is never the empty string: it always contains the
separating space that `print` inserts between its two arguments. -/
lemma headingLine_ne_empty (i : Nat) (k : String) : headingLine i k ≠ "" := by
  intro h
  have hlen := congrArg String.length h
  simp only [headingLine, String.length_append] at hlen
  have hone : String.length " " = 1 := rfl
  have hzero : String.length "" = 0 := rfl
  rw [hone, hzero] at hlen
  omega

/-- Claim C1, counterexample.  The claim predicts a blank line before a
Section child's heading exactly when the previously emitted variant was
also a Section.  The code (line 11: `last is not None and last != dict`)
does the opposite: after a Description sibling (`last = str`) a blank
line IS emitted before the heading, and when the previous emitted
variant was a Section (`last = dict`) NO blank line is emitted. -/
theorem claim_C1_counterexample :
    (thing [("d", Node.str "v"), ("b", Node.dict [])] 4 none).1
      = ["- `d`: v", "", "#### B", ""]
    ∧ (thing [("b", Node.dict [])] 4 (some Var.str)).1 = ["", "#### B", ""]
    ∧ (thing [("b", Node.dict [])] 4 (some Var.dict)).1 = ["#### B", ""] := by
  refine ⟨?_, ?_, ?_⟩ <;> (simp only [thing]; decide)

/-- Claim C1, amended: a blank line is emitted immediately before a
Section child's heading if and only if some variant was previously
emitted (the global tracker is not `None`) and that variant was NOT a
Section; children following a Description or a Verbatim block always
receive the pre-heading blank line, and Section-following-Section never
does. -/
theorem claim_C1 (k : String) (m rest : List (String × Node)) (i : Nat)
    (s : Option Var) :
    ((thing ((k, Node.dict m) :: rest) i s).1.head? = some "")
      ↔ (s ≠ none ∧ s ≠ some Var.dict) := by
  simp only [thing]
  by_cases h : s ≠ none ∧ s ≠ some Var.dict
  · simp [h]
  · simp [h, headingLine_ne_empty i k]

/-- Claim C2, counterexample.  `thing(x, 4)` prints the root's immediate
Section children with `"#"*4` — four marker characters, not five; the
end-to-end input produces `#### Settings`, not `##### Settings`. -/
theorem claim_C2_counterexample :
    genDocs [("description", Node.str "x"),
             ("settings", Node.dict [("timeout", Node.str "30s")])]
      = Except.ok ["#### Settings", "", "- `timeout`: 30s"]
    ∧ genDocs [("description", Node.str "x"),
               ("settings", Node.dict [("timeout", Node.str "30s")])]
      ≠ Except.ok ["##### Settings", "", "- `timeout`: 30s"] := by
  have h2 : (thing [("settings", Node.dict [("timeout", Node.str "30s")])] 4 none).1
      = ["#### Settings", "", "- `timeout`: 30s"] := by
    simp only [thing]; decide
  have hok : genDocs [("description", Node.str "x"),
      ("settings", Node.dict [("timeout", Node.str "30s")])]
      = Except.ok ["#### Settings", "", "- `timeout`: 30s"] :=
    congrArg Except.ok h2
  refine ⟨hok, ?_⟩
  rw [hok]
  intro hcontra
  have hlists : ["#### Settings", "", "- `timeout`: 30s"]
      = ["##### Settings", "", "- `timeout`: 30s"] := by
    injection hcontra
  exact absurd hlists (by decide)

/-- Claim C2, amended: when the root Section is rendered at starting
depth 4, a child of the root that is itself a Section gets a heading
line with 4 heading-marker characters (the starting depth itself; only a
grandchild Section gets 5); the end-to-end input
`{"docs": {"description": "x", "settings": {"timeout": "30s"}}}`
produces exactly the heading `#### Settings`, a blank line, then
`` - `timeout`: 30s ``. -/
theorem claim_C2 :
    (∀ (k : String) (m rest : List (String × Node)),
      (thing ((k, Node.dict m) :: rest) 4 none).1.head?
        = some (String.replicate 4 '#' ++ " " ++ pyTitle (underscoreToSpace k)))
    ∧ genDocs [("description", Node.str "x"),
               ("settings", Node.dict [("timeout", Node.str "30s")])]
      = Except.ok ["#### Settings", "", "- `timeout`: 30s"] := by
  constructor
  · intro k m rest
    simp [thing, headingLine]
  · have h2 : (thing [("settings", Node.dict [("timeout", Node.str "30s")])] 4 none).1
        = ["#### Settings", "", "- `timeout`: 30s"] := by
      simp only [thing]; decide
    exact congrArg Except.ok h2

/-- Claim C3, counterexample.  The `isinstance` chain (lines 10–23) has
no `else` branch: a child value that is neither dict, string, nor list
is skipped silently — no output line, no exception, and the `last`
tracker keeps its previous value — instead of the fail-fast typed error
the claim requires. -/
theorem claim_C3_counterexample :
    thing [("bad", Node.other)] 4 none = ([], none)
    ∧ genDocs [("description", Node.str "x"), ("bad", Node.other),
               ("t", Node.str "30s")]
      = Except.ok ["- `t`: 30s"] := by
  constructor
  · simp only [thing]
  · have h2 : (thing [("bad", Node.other), ("t", Node.str "30s")] 4 none).1
        = ["- `t`: 30s"] := by
      simp only [thing]; decide
    exact congrArg Except.ok h2

/-- Claim C3, amended: a child value that is neither a Section, a
string, nor a list (a number, boolean or null) is silently skipped:
rendering it emits no output line, raises no error, and leaves the
previous-sibling tracker unchanged, so rendering continues with the
remaining children as if the entry were absent. -/
theorem claim_C3 (k : String) (rest : List (String × Node)) (i : Nat)
    (s : Option Var) :
    thing ((k, Node.other) :: rest) i s = thing rest i s := by
  simp only [thing]

/-- Claim C4, counterexample.  The global `last` is never reset between
invocations of `thing`: a first render of
`{"s": {"d": "v"}}` ends with `last = str`, so a second render of the
same tree in the same process starts by emitting an extra blank line and
its output is not byte-identical to the first. -/
theorem claim_C4_counterexample :
    (thing [("s", Node.dict [("d", Node.str "v")])] 4 none).1
      = ["#### S", "", "- `d`: v"]
    ∧ (thing [("s", Node.dict [("d", Node.str "v")])] 4
        (thing [("s", Node.dict [("d", Node.str "v")])] 4 none).2).1
      = ["", "#### S", "", "- `d`: v"]
    ∧ (thing [("s", Node.dict [("d", Node.str "v")])] 4
        (thing [("s", Node.dict [("d", Node.str "v")])] 4 none).2).1
      ≠ (thing [("s", Node.dict [("d", Node.str "v")])] 4 none).1 := by
  refine ⟨?_, ?_, ?_⟩ <;> (simp only [thing]; decide)

/-- Claim C4, amended: the previous-sibling tracker is a process-global
that is NOT reset between invocations, so two successive invocations on
the same tree need not be byte-identical; the leftover tracker value can
affect the output only by one extra leading blank line — a render
started from any tracker state equals the fresh-state (`None`) render,
or that render preceded by exactly one blank line. -/
theorem claim_C4 (t : List (String × Node)) (i : Nat) (s : Option Var) :
    (thing t i s).1 = (thing t i none).1
    ∨ (thing t i s).1 = "" :: (thing t i none).1 := by
  induction t with
  | nil => left; simp [thing]
  | cons hd rest ih =>
      obtain ⟨k, v⟩ := hd
      cases v with
      | dict m =>
          simp only [thing]
          by_cases h : s ≠ none ∧ s ≠ some Var.dict
          · right; simp [h]
          · left; simp [h]
      | str v => left; simp [thing]
      | list ls => left; simp [thing]
      | other => simpa only [thing] using ih

/-- Claim C5, counterexample.  Two trees whose root level has the same
sibling variant sequence [Section `a`, Section `b`] but different
contents inside `a`: with `a` empty the tracker reaching `b` is `dict`
and no blank line is inserted before `b`'s heading, while with `a`
containing a description the tracker reaching `b` is `str` and a blank
line IS inserted — the nested subtree leaks into the parent level's
blank-line decision. -/
theorem claim_C5_counterexample :
    (thing [("a", Node.dict []), ("b", Node.dict [])] 4 none).1
      = ["#### A", "", "#### B", ""]
    ∧ (thing [("a", Node.dict [("d", Node.str "v")]), ("b", Node.dict [])]
        4 none).1
      = ["#### A", "", "- `d`: v", "", "#### B", ""]
    ∧ (thing [("b", Node.dict [])] 4
        (thing [("a", Node.dict [])] 4 none).2).1
      = ["#### B", ""]
    ∧ (thing [("b", Node.dict [])] 4
        (thing [("a", Node.dict [("d", Node.str "v")])] 4 none).2).1
      = ["", "#### B", ""] := by
  refine ⟨?_, ?_, ?_, ?_⟩ <;> (simp only [thing]; decide)

/-- Claim C5, amended: the previous-sibling tracker is a single
process-global, not scoped per Section level: after a Section child is
rendered, the tracker value seen by the following siblings is whatever
value the Section's entire nested subtree left behind, so the siblings
after a Section are rendered from the subtree's final tracker state and
nested contents can change the parent level's blank-line decisions. -/
theorem claim_C5 (k : String) (m rest : List (String × Node)) (i : Nat)
    (s : Option Var) :
    (thing ((k, Node.dict m) :: rest) i s).2
      = (thing rest i (thing m (i + 1) (some Var.dict)).2).2
    ∧ (thing ((k, Node.dict m) :: rest) i s).1
      = (thing [(k, Node.dict m)] i s).1
        ++ (thing rest i (thing m (i + 1) (some Var.dict)).2).1 := by
  constructor
  · simp only [thing]
  · simp only [thing]
    simp

/-- Claim C6 (confirmed): a Section child with key `k` rendered at depth
`i` gets the heading line `"#"*i ++ " " ++ title(k.replace("_", " "))` —
`i` marker characters, one space, the key with underscores turned into
spaces and then title-cased; key `"api_docs"` renders as heading text
`Api Docs`. -/
theorem claim_C6 :
    (∀ (i : Nat) (k : String) (m rest : List (String × Node)),
      (thing ((k, Node.dict m) :: rest) i none).1.head?
        = some (String.replicate i '#' ++ " " ++ pyTitle (underscoreToSpace k)))
    ∧ (thing [("api_docs", Node.dict [])] 2 none).1 = ["## Api Docs", ""]
    ∧ pyTitle (underscoreToSpace "api_docs") = "Api Docs" := by
  refine ⟨?_, ?_, ?_⟩
  · intro i k m rest
    simp [thing, headingLine]
  · simp only [thing]; decide
  · decide

/-- Claim C7 (confirmed): a Description child (string value `v` under
key `k`) emits exactly one output line, `` - `k`: v ``, with the value
unmodified; key `"timeout"` with value `"max wait in seconds"` renders
exactly as `` - `timeout`: max wait in seconds ``. -/
theorem claim_C7 :
    (∀ (k v : String) (rest : List (String × Node)) (i : Nat) (s : Option Var),
      (thing ((k, Node.str v) :: rest) i s).1
        = ("- `" ++ k ++ "`: " ++ v) :: (thing rest i (some Var.str)).1)
    ∧ (thing [("timeout", Node.str "max wait in seconds")] 4 none).1
      = ["- `timeout`: max wait in seconds"] := by
  constructor
  · intro k v rest i s
    simp [thing, descLine]
  · simp only [thing]; decide

/-- Claim C8 (confirmed): a Verbatim-block child (list of strings) emits
each element as its own output line, in list order and unmodified, so a
list of `n` strings contributes exactly its `n` elements;
`["line one", "line two"]` renders as exactly those two lines. -/
theorem claim_C8 :
    (∀ (k : String) (ls : List String) (rest : List (String × Node))
        (i : Nat) (s : Option Var),
      (thing ((k, Node.list ls) :: rest) i s).1
        = ls ++ (thing rest i (some Var.list)).1)
    ∧ (∀ (k : String) (ls : List String) (i : Nat) (s : Option Var),
      (thing [(k, Node.list ls)] i s).1 = ls)
    ∧ (thing [("raw", Node.list ["line one", "line two"])] 4 none).1
      = ["line one", "line two"] := by
  refine ⟨?_, ?_, ?_⟩
  · intro k ls rest i s
    simp [thing]
  · intro k ls i s
    simp [thing]
  · simp only [thing]; decide

/-- Deleting a key that first occurs in the middle of the item list
removes exactly that entry. -/
lemma eraseKey_middle (l1 l2 : List (String × Node)) (v : Node)
    (h : "description" ∉ l1.map Prod.fst) :
    eraseKey (l1 ++ ("description", v) :: l2) "description" = l1 ++ l2 := by
  induction l1 with
  | nil => simp [eraseKey]
  | cons hd tl ih =>
      obtain ⟨k, w⟩ := hd
      simp only [List.map_cons, List.mem_cons] at h
      push_neg at h
      simp only [List.cons_append, eraseKey]
      rw [if_neg (fun hk => h.1 hk.symm)]
      rw [List.append_eq, ih h.2]

/-- Claim C9 (confirmed): the reserved key `description` is deleted from
the `docs` object before `thing` runs, so the rendered output is exactly
the rendering of the remaining entries and is the same whatever value —
of whatever type — the `description` key carried. -/
theorem claim_C9 (l1 l2 : List (String × Node)) (v w : Node)
    (h : "description" ∉ l1.map Prod.fst) :
    genDocs (l1 ++ ("description", v) :: l2)
      = Except.ok (thing (l1 ++ l2) 4 none).1
    ∧ genDocs (l1 ++ ("description", v) :: l2)
      = genDocs (l1 ++ ("description", w) :: l2) := by
  have hv := eraseKey_middle l1 l2 v h
  have hw := eraseKey_middle l1 l2 w h
  constructor
  · simp [genDocs, hv]
  · simp [genDocs, hv, hw]

/-- Claim C9 witness: a concrete document where the `description` value
is a non-renderable JSON value; the entry is stripped and the output
equals that of the remaining entries, unchanged when the value is
replaced by a string. -/
theorem claim_C9_witness :
    genDocs [("a", Node.str "x"), ("description", Node.other)]
      = Except.ok (thing [("a", Node.str "x")] 4 none).1
    ∧ genDocs [("a", Node.str "x"), ("description", Node.other)]
      = genDocs [("a", Node.str "x"), ("description", Node.str "y")] := by
  have h := claim_C9 [("a", Node.str "x")] [] Node.other (Node.str "y")
    (by decide)
  simpa using h

/-- Claim C10 (confirmed): when the `docs` object has no `description`
key, `del x["description"]` raises `KeyError` before `thing` is ever
called, so the run fails with a key-lookup error and produces no output
line. -/
theorem claim_C10 (docs : List (String × Node))
    (h : "description" ∉ docs.map Prod.fst) :
    genDocs docs = Except.error "KeyError: description" := by
  have hany : docs.any (fun p => p.1 = "description") = false := by
    rw [List.any_eq_false]
    intro x hx
    simp only [decide_eq_true_eq]
    intro he
    exact h (he ▸ List.mem_map_of_mem Prod.fst hx)
  simp [genDocs, hany]

/-- Claim C10 witness: a concrete `docs` object without a `description`
key makes the run abort with the `KeyError`. -/
theorem claim_C10_witness :
    genDocs [("a", Node.str "v")] = Except.error "KeyError: description" :=
  claim_C10 [("a", Node.str "v")] (by decide)

end GenDocs
